import Mathlib

/-!
Shallow embedding of the voicenotea tablet-screenshot generator
(src/src/models.py, src/src/image_processor.py, src/src/generator.py,
src/src/path_manager.py, src/src/logger.py, src/src/main.py).

Conventions of the embedding:
* Python `int` is modelled as `ℤ`; Python `float` arithmetic is modelled as
  exact rational arithmetic over `ℚ` (the spec states its properties in
  real-number terms).
* Python `round` (banker's rounding, round-half-to-even) is `pyRound`.
* A Python function that may `raise` is modelled as returning
  `Except PyError α`; the exception classes of src/logger.py become the
  constructors of `PyError`, each carrying its message.
* Dataclass `__post_init__` validation is modelled by `mk...` smart
  constructors returning `Except PyError`.
* Filesystem and PIL effects (file existence, image decoding, resampling,
  compositing, saving, `stat`) are modelled by an explicit environment `Env`
  whose fields give the outcome of each effectful call per path; file paths
  are plain strings.
-/

namespace Voicenotea

/-- The exception hierarchy of src/logger.py: `ConfigError`, `PathError`,
`ProcessingError`, `FatalError`, plus a constructor for any other Python
exception (whose `getattr(e, "exit_code", 1)` default is 1). -/
inductive PyError where
  | configError (msg : String)
  | pathError (msg : String)
  | processingError (msg : String)
  | fatalError (msg : String)
  | otherError (msg : String)
deriving DecidableEq, Repr

/-- The `exit_code` class attributes of src/logger.py lines 9-30, with the
`getattr(e, "exit_code", 1)` default used by `log_exception` for other
exceptions. -/
def PyError.exit_code : PyError → ℤ
  | .configError _ => 1
  | .pathError _ => 2
  | .processingError _ => 3
  | .fatalError _ => 10
  | .otherError _ => 1

/-- The message carried by the exception, as Python `str(e)` renders it. -/
def PyError.msg : PyError → String
  | .configError m => m
  | .pathError m => m
  | .processingError m => m
  | .fatalError m => m
  | .otherError m => m

/-- Python's built-in `round` restricted to one argument: round half to even
(banker's rounding), modelled on exact rationals. -/
def pyRound (q : ℚ) : ℤ :=
  if q - (⌊q⌋ : ℚ) < 1/2 then ⌊q⌋
  else if 1/2 < q - (⌊q⌋ : ℚ) then ⌊q⌋ + 1
  else if ⌊q⌋ % 2 = 0 then ⌊q⌋ else ⌊q⌋ + 1

/-- Whether an `Except` computation succeeded (Python: no exception raised). -/
def isOkE {α : Type} (e : Except PyError α) : Bool :=
  match e with
  | .ok _ => true
  | .error _ => false

/-- The `ImageDimensions` dataclass of src/models.py (raw fields; the
`__post_init__` validation is `mkImageDimensions`). -/
structure ImageDimensions where
  width : ℤ
  height : ℤ
deriving DecidableEq, Repr

/-- `ImageDimensions.__post_init__` (src/models.py lines 80-86): construction
fails with `ProcessingError` unless both dimensions are strictly positive. -/
def mkImageDimensions (width height : ℤ) : Except PyError ImageDimensions :=
  if width ≤ 0 ∨ height ≤ 0 then
    .error (.processingError ("Invalid image dimensions: " ++ toString width ++ "x"
      ++ toString height ++ ". Both must be positive integers."))
  else
    .ok ⟨width, height⟩

/-- The scale factor `min(max_width / self.width, max_height / self.height)`
computed by `scale_to_fit` (src/models.py lines 140-142). -/
def fitScale (d : ImageDimensions) (max_width max_height : ℤ) : ℚ :=
  min ((max_width : ℚ) / (d.width : ℚ)) ((max_height : ℚ) / (d.height : ℚ))

/-- `ImageDimensions.scale_to_fit` (src/models.py lines 115-147): validates the
bounds, computes the minimum of the two bound-to-original ratios, and builds a
new `ImageDimensions` from the rounded scaled sides (whose constructor raises
on a non-positive side). -/
def ImageDimensions.scale_to_fit (d : ImageDimensions)
    (max_width max_height : ℤ) : Except PyError ImageDimensions :=
  if max_width ≤ 0 ∨ max_height ≤ 0 then
    .error (.processingError ("Invalid max dimensions: " ++ toString max_width ++ "x"
      ++ toString max_height ++ ". Both must be positive."))
  else
    mkImageDimensions (pyRound ((d.width : ℚ) * fitScale d max_width max_height))
      (pyRound ((d.height : ℚ) * fitScale d max_width max_height))

/-- The `TabletPreset` dataclass of src/models.py (raw fields). -/
structure TabletPreset where
  size : String
  width : ℤ
  height : ℤ
  dpi : ℤ
deriving DecidableEq, Repr

/-- An RGB color triple. -/
abbrev RGB := ℤ × ℤ × ℤ

/-- The `ScreenshotConfig` dataclass of src/models.py (raw fields; the
`__post_init__` validation is `mkScreenshotConfig`). -/
structure ScreenshotConfig where
  input_path : String
  output_path : String
  tablet_preset : TabletPreset
  jpeg_quality : ℤ
  background_color : RGB

/-- `ScreenshotConfig.__post_init__` (src/models.py lines 177-195): non-empty
paths, quality in 1..100, each color channel in 0..255.  (The Python length-3
check on the color tuple is vacuous for a triple.) -/
def mkScreenshotConfig (input_path output_path : String) (tablet_preset : TabletPreset)
    (jpeg_quality : ℤ) (background_color : RGB) : Except PyError ScreenshotConfig :=
  if input_path = "" then .error (.processingError "Input path cannot be empty")
  else if output_path = "" then .error (.processingError "Output path cannot be empty")
  else if ¬(1 ≤ jpeg_quality ∧ jpeg_quality ≤ 100) then
    .error (.processingError ("JPEG quality must be 1-100, got " ++ toString jpeg_quality))
  else if ¬(0 ≤ background_color.1 ∧ background_color.1 ≤ 255) then
    .error (.processingError ("RGB channel must be 0-255, got " ++ toString background_color.1))
  else if ¬(0 ≤ background_color.2.1 ∧ background_color.2.1 ≤ 255) then
    .error (.processingError ("RGB channel must be 0-255, got " ++ toString background_color.2.1))
  else if ¬(0 ≤ background_color.2.2 ∧ background_color.2.2 ≤ 255) then
    .error (.processingError ("RGB channel must be 0-255, got " ++ toString background_color.2.2))
  else
    .ok ⟨input_path, output_path, tablet_preset, jpeg_quality, background_color⟩

/-- The `ProcessingResult` dataclass of src/models.py (raw fields; the
`__post_init__` validation is `mkProcessingResult`).
`file_size_mb` (a Python float) is modelled as `ℚ`. -/
structure ProcessingResult where
  input_file : String
  output_file : String
  success : Bool
  error : Option String
  file_size_mb : Option ℚ
  scaled_dimensions : Option (ℤ × ℤ)

/-- `ProcessingResult.__post_init__` (src/models.py lines 228-235): a success
may not carry an error message, a failure must carry one, and a present file
size may not be negative. -/
def mkProcessingResult (input_file output_file : String) (success : Bool)
    (error : Option String) (file_size_mb : Option ℚ)
    (scaled_dimensions : Option (ℤ × ℤ)) : Except PyError ProcessingResult :=
  if success = true ∧ error ≠ none then
    .error (.processingError "Success result cannot have error message")
  else if success = false ∧ error = none then
    .error (.processingError "Failed result must have error message")
  else
    match file_size_mb with
    | some q =>
        if q < 0 then .error (.processingError "File size cannot be negative")
        else .ok ⟨input_file, output_file, success, error, file_size_mb, scaled_dimensions⟩
    | none => .ok ⟨input_file, output_file, success, error, file_size_mb, scaled_dimensions⟩

/-- An in-memory PIL image as far as the pipeline observes it: its pixel size.
(PIL's `img.size` never fails on a loaded image, so the defensive
`AttributeError` branch of `validate_image` is unreachable and not modelled.) -/
structure PyImage where
  width : ℤ
  height : ℤ

/-- Outcome of `Image.open(path)`/`img.load()`/`img.copy()` in `load_image`
for a file that exists: success, a late `FileNotFoundError`, or an
`IOError`/`OSError`/`ValueError` with its detail text. -/
inductive LoadOutcome where
  | ok (img : PyImage)
  | fileNotFound
  | ioError (detail : String)

/-- Outcome of `img.save(...)` inside `save_image`: success, an
`IOError`/`OSError` (first handler), or any other exception (second handler). -/
inductive SaveOutcome where
  | ok
  | ioError (detail : String)
  | otherExn (detail : String)

/-- Outcome of the `tablet_img.paste`/`Image.new` block in
`create_padded_image`: success, a caught `ValueError`/`TypeError`/`MemoryError`,
or an exception of another class, which escapes `create_padded_image` and is
only caught by `process_screenshot`'s blanket handler. -/
inductive PadOutcome where
  | ok
  | caught (detail : String)
  | uncaught (detail : String)

/-- The effectful world the per-file pipeline runs against, indexed by path:
whether the input file exists, what decoding it yields, and how the
resample/composite/save/stat calls behave. -/
structure Env where
  fileExists : String → Bool
  decodeImage : String → LoadOutcome
  resizeFail : String → Option String
  padOutcome : String → PadOutcome
  saveOutcome : String → SaveOutcome
  statResult : String → Except String ℕ

/-- `ImageProcessor.MAX_IMAGE_DIMENSION` (src/image_processor.py line 26). -/
def MAX_IMAGE_DIMENSION : ℤ := 8000

/-- `ImageProcessor.load_image` (src/image_processor.py lines 28-54): raises
`ProcessingError` when the file is missing or decoding fails. -/
def load_image (env : Env) (input_path : String) : Except PyError PyImage :=
  if env.fileExists input_path = false then
    .error (.processingError ("Input file not found: " ++ input_path))
  else
    match env.decodeImage input_path with
    | .ok img => .ok img
    | .fileNotFound => .error (.processingError ("Cannot find image file: " ++ input_path))
    | .ioError e =>
        .error (.processingError ("Corrupted or invalid image file " ++ input_path ++ ": " ++ e))

/-- `ImageProcessor.validate_image` (src/image_processor.py lines 56-90) at the
default `min_width=100`: rejects too-small and too-large images, then builds
validated `ImageDimensions`. -/
def validate_image (img : PyImage) (min_width : ℤ) : Except PyError ImageDimensions :=
  if img.width < min_width ∨ img.height < min_width then
    .error (.processingError ("Image too small: " ++ toString img.width ++ "x"
      ++ toString img.height ++ ". Minimum: " ++ toString min_width ++ "x" ++ toString min_width))
  else if MAX_IMAGE_DIMENSION < img.width ∨ MAX_IMAGE_DIMENSION < img.height then
    .error (.processingError ("Image too large: " ++ toString img.width ++ "x"
      ++ toString img.height ++ ". Maximum: 8000x8000"))
  else
    mkImageDimensions img.width img.height

/-- `ImageProcessor.calculate_scaled_dimensions` (src/image_processor.py lines
92-123): applies `scale_to_fit` against the tablet bounds.  (Its
`ValueError`/`ZeroDivisionError` handler is unreachable in the model because
`scale_to_fit` signals failures as `ProcessingError` already.) -/
def calculate_scaled_dimensions (original_dims : ImageDimensions)
    (tablet_preset : TabletPreset) : Except PyError (ℤ × ℤ) := do
  let scaled ← original_dims.scale_to_fit tablet_preset.width tablet_preset.height
  return (scaled.width, scaled.height)

/-- `ImageProcessor.resize_image` (src/image_processor.py lines 125-154): any
exception from PIL's resampling is converted to `ProcessingError`. -/
def resize_image (env : Env) (input_path : String) : Except PyError Unit :=
  match env.resizeFail input_path with
  | none => .ok ()
  | some e => .error (.processingError ("Failed to resize image: " ++ e))

/-- A bitmap: its size and the color at every coordinate. -/
structure Canvas where
  width : ℤ
  height : ℤ
  pixel : ℤ → ℤ → RGB

/-- PIL `base.paste(img, (x0, y0))`: inside the pasted rectangle the pasted
image's pixels show, elsewhere the base's. -/
def pastedCanvas (base img : Canvas) (x0 y0 : ℤ) : Canvas :=
  { width := base.width
    height := base.height
    pixel := fun x y =>
      if x0 ≤ x ∧ x < x0 + img.width ∧ y0 ≤ y ∧ y < y0 + img.height then
        img.pixel (x - x0) (y - y0)
      else base.pixel x y }

/-- The geometry of `ImageProcessor.create_padded_image` (src/image_processor.py
lines 156-194, try body): a canvas of exactly the tablet's size filled with the
background color, with the resized image pasted at the integer-divided centered
offset.  Python `//` is floor division, `Int.fdiv` here. -/
def create_padded_image (resized_img : Canvas) (tablet_preset : TabletPreset)
    (background_color : RGB) : Canvas :=
  let tablet_img : Canvas :=
    { width := tablet_preset.width
      height := tablet_preset.height
      pixel := fun _ _ => background_color }
  let x_offset := Int.fdiv (tablet_preset.width - resized_img.width) 2
  let y_offset := Int.fdiv (tablet_preset.height - resized_img.height) 2
  pastedCanvas tablet_img resized_img x_offset y_offset

/-- The exception behavior of `create_padded_image`: `ValueError`/`TypeError`/
`MemoryError` become `ProcessingError`; an exception of any other class
escapes unconverted (modelled as `otherError`). -/
def create_padded_image_checked (env : Env) (input_path : String) : Except PyError Unit :=
  match env.padOutcome input_path with
  | .ok => .ok ()
  | .caught e => .error (.processingError ("Failed to create padded image: " ++ e))
  | .uncaught e => .error (.otherError e)

/-- `ImageProcessor.save_image` (src/image_processor.py lines 196-228):
`IOError`/`OSError` and any other exception are both converted to
`ProcessingError`, with distinct message prefixes. -/
def save_image (env : Env) (output_path : String) : Except PyError Unit :=
  match env.saveOutcome output_path with
  | .ok => .ok ()
  | .ioError e => .error (.processingError ("Failed to save image to " ++ output_path ++ ": " ++ e))
  | .otherExn e => .error (.processingError ("Unexpected error saving image: " ++ e))

/-- `output_path.stat().st_size` in `process_screenshot`; an `OSError` here is
not a `ProcessingError` and reaches the blanket handler. -/
def stat_size (env : Env) (output_path : String) : Except PyError ℕ :=
  match env.statResult output_path with
  | .ok n => .ok n
  | .error e => .error (.otherError e)

/-- The try body of `ImageProcessor.process_screenshot` (src/image_processor.py
lines 255-291): load, validate (at the default minimum width 100), fit,
resample, composite, save, then stat the output file. -/
def pipelineBody (env : Env) (config : ScreenshotConfig) : Except PyError ((ℤ × ℤ) × ℕ) := do
  let img ← load_image env config.input_path
  let original_dims ← validate_image img 100
  let scaled ← calculate_scaled_dimensions original_dims config.tablet_preset
  let _ ← resize_image env config.input_path
  let _ ← create_padded_image_checked env config.input_path
  let _ ← save_image env config.output_path
  let file_size ← stat_size env config.output_path
  return (scaled, file_size)

/-- The message recorded by `process_screenshot`'s two except clauses: a
`ProcessingError` is recorded as `str(e)`, anything else with the
"Unexpected error: " prefix. -/
def caughtMessage : PyError → String
  | .processingError m => m
  | e => "Unexpected error: " ++ e.msg

/-- `ImageProcessor.process_screenshot` (src/image_processor.py lines 230-311):
runs the pipeline and converts the outcome into a `ProcessingResult` through
the dataclass's validating constructor.  The result is `Except` because that
constructor itself could in principle raise — the theorems show it never
does. -/
def process_screenshot (env : Env) (config : ScreenshotConfig) :
    Except PyError ProcessingResult :=
  match pipelineBody env config with
  | .ok (scaled, file_size) =>
      mkProcessingResult config.input_path config.output_path true none
        (some ((file_size : ℚ) / (1024 * 1024))) (some scaled)
  | .error e =>
      mkProcessingResult config.input_path config.output_path false
        (some (caughtMessage e)) none none

/-- The per-run configuration the generator derives before the loop: tablet
preset, JPEG quality, background color and output directory (src/generator.py
lines 102-114 and 206-218). -/
structure GenConfig where
  tablet_preset : TabletPreset
  jpeg_quality : ℤ
  background_color : RGB
  output_dir : String

/-- `Path(p).name`: the final path component. -/
def pyPathName (p : String) : String := (p.splitOn "/").getLastD p

/-- `ScreenshotGenerator._get_output_path` (src/generator.py lines 206-218):
output directory joined with the input file's name. -/
def get_output_path (gen : GenConfig) (input_path : String) : String :=
  gen.output_dir ++ "/" ++ pyPathName input_path

/-- `ScreenshotGenerator.process_image` (src/generator.py lines 93-135): build
the per-file `ScreenshotConfig`, run `process_screenshot`, and on any escaped
exception fall back to a failure `ProcessingResult` built in the handler (that
raw construction always satisfies `__post_init__`: success is false and the
error field is `some`). -/
def process_image (gen : GenConfig) (env : Env) (input_path : String) : ProcessingResult :=
  match (do
      let config ← mkScreenshotConfig input_path (get_output_path gen input_path)
        gen.tablet_preset gen.jpeg_quality gen.background_color
      process_screenshot env config) with
  | .ok result => result
  | .error e =>
      { input_file := input_path
        output_file := ""
        success := false
        error := some e.msg
        file_size_mb := none
        scaled_dimensions := none }

/-- Whether a file name matches the glob pattern `"*" ++ suffix` as
`pathlib.Path.glob` interprets it: `*` matches any run of characters, leading
dot included (unlike the `glob` module, `pathlib.Path.glob` does match hidden
files), so a name matches exactly when it ends with the suffix.  The generator
always passes the pattern `*.jpg`. -/
def globStarMatches (suffix : String) (name : String) : Bool :=
  name.endsWith suffix

/-- `PathManager.get_screenshot_files` (src/path_manager.py lines 173-203) on a
directory that exists: `sorted(input_dir.glob(pattern))`.  Directory entries
are modelled by their file names. -/
def get_screenshot_files (listing : List String) (suffix : String) : List String :=
  List.insertionSort (· ≤ ·) (listing.filter (globStarMatches suffix))

/-- An input directory as `process_directory` observes it: the outcome of
`path_manager.validate_input_dir` and, when readable, its entries. -/
structure InputDir where
  validation : Except String Unit
  listing : List String

/-- `ScreenshotGenerator.process_directory` (src/generator.py lines 137-167):
an unreadable input directory is caught and yields `[]`; otherwise every
discovered file is processed in the sorted order, one result each. -/
def process_directory (gen : GenConfig) (env : Env) (dir : InputDir) :
    List ProcessingResult :=
  match dir.validation with
  | .error _ => []
  | .ok _ =>
      (get_screenshot_files dir.listing ".jpg").map (fun p => process_image gen env p)

/-- The tally of `ScreenshotGenerator.get_processing_stats`
(src/generator.py lines 169-182). -/
structure Stats where
  total : ℕ
  success : ℕ
  failed : ℕ
deriving DecidableEq, Repr

/-- `ScreenshotGenerator.get_processing_stats`: success count and the rest. -/
def get_processing_stats (results : List ProcessingResult) : Stats :=
  { total := results.length
    success := (results.filter (fun r => r.success)).length
    failed := results.length - (results.filter (fun r => r.success)).length }

/-- `ScreenshotGenerator.print_summary` (src/generator.py lines 184-204): exit
code 1 when any file failed, else 0. -/
def print_summary (results : List ProcessingResult) : ℤ :=
  if 0 < (get_processing_stats results).failed then 1 else 0

/-- How a run of `main` (src/main.py lines 139-204) ends: either an exception
reached main's handlers, or `process_directory` completed with a list of
results. -/
inductive RunEvent where
  | raised (e : PyError)
  | completed (results : List ProcessingResult)

/-- The exit code `main` returns (src/main.py lines 183-204): an escaped
classified exception yields its `exit_code` via `log_exception`, any other
exception yields 10, an empty result list yields 1, and otherwise
`print_summary` decides. -/
def main_exit : RunEvent → ℤ
  | .raised (.configError m) => (PyError.configError m).exit_code
  | .raised (.pathError m) => (PyError.pathError m).exit_code
  | .raised (.processingError m) => (PyError.processingError m).exit_code
  | .raised (.fatalError m) => (PyError.fatalError m).exit_code
  | .raised (.otherError _) => 10
  | .completed results =>
      if results.isEmpty then 1 else print_summary results

/-- The "7inch" preset of `ScreenshotGenerator.get_tablet_preset`
(src/generator.py line 84). -/
def samplePreset : TabletPreset := ⟨"7inch", 1080, 1920, 326⟩

/-- A concrete generator configuration with the defaults of
`ScreenshotGenerator.process_image`: quality 95, black background. -/
def sampleGen : GenConfig :=
  { tablet_preset := samplePreset
    jpeg_quality := 95
    background_color := (0, 0, 0)
    output_dir := "output" }

/-- A world in which no input file exists: every load fails at the existence
check. -/
def sampleEnv : Env :=
  { fileExists := fun _ => false
    decodeImage := fun _ => .fileNotFound
    resizeFail := fun _ => none
    padOutcome := fun _ => .ok
    saveOutcome := fun _ => .ok
    statResult := fun _ => .ok 0 }

/-- A readable input directory holding three matching `.jpg` files (out of
order, one of them hidden — `pathlib.Path.glob` matches it too) and one `.png`
that the default glob skips. -/
def sampleDir : InputDir :=
  { validation := .ok ()
    listing := ["b.jpg", "a.jpg", "c.png", ".hidden.jpg"] }

/-- An input directory whose `validate_input_dir` call raised `PathError`. -/
def badDir : InputDir :=
  { validation := .error "Path does not exist: screenshots"
    listing := [] }

/-- A concrete per-file configuration for one input file. -/
def sampleConfig : ScreenshotConfig :=
  { input_path := "screenshots/a.jpg"
    output_path := "output/a.jpg"
    tablet_preset := samplePreset
    jpeg_quality := 95
    background_color := (0, 0, 0) }

/-- A failed per-file result, as the batch records one. -/
def sampleFailedResult : ProcessingResult :=
  { input_file := "a.jpg"
    output_file := ""
    success := false
    error := some "File corrupted"
    file_size_mb := none
    scaled_dimensions := none }

/-- A concrete resized bitmap of spec scenario 2's fitted size. -/
def sampleResized : Canvas :=
  { width := 920
    height := 1920
    pixel := fun _ _ => (1, 2, 3) }

/-! ## Basic lemmas about the rounding primitive and the validating constructors -/

theorem pyRound_le (q : ℚ) : (pyRound q : ℚ) ≤ q + 1/2 := by
  unfold pyRound
  have h1 : (⌊q⌋ : ℚ) ≤ q := Int.floor_le q
  have h2 : q < (⌊q⌋ : ℚ) + 1 := Int.lt_floor_add_one q
  split
  · linarith
  · split
    · push_cast
      linarith
    · split
      · linarith
      · push_cast
        linarith

theorem le_pyRound (q : ℚ) : q - 1/2 ≤ (pyRound q : ℚ) := by
  unfold pyRound
  have h1 : (⌊q⌋ : ℚ) ≤ q := Int.floor_le q
  have h2 : q < (⌊q⌋ : ℚ) + 1 := Int.lt_floor_add_one q
  split
  · linarith
  · split
    · push_cast
      linarith
    · split
      · linarith
      · push_cast
        linarith

theorem abs_pyRound_sub (q : ℚ) : |(pyRound q : ℚ) - q| ≤ 1/2 := by
  rw [abs_le]
  constructor
  · have := le_pyRound q
    linarith
  · have := pyRound_le q
    linarith

theorem pyRound_intCast (n : ℤ) : pyRound (n : ℚ) = n := by
  unfold pyRound
  simp [Int.floor_intCast]

theorem pyRound_le_of_le_int {q : ℚ} {n : ℤ} (h : q ≤ (n : ℚ)) : pyRound q ≤ n := by
  have h1 : (pyRound q : ℚ) ≤ (n : ℚ) + 1/2 := le_trans (pyRound_le q) (by linarith)
  have h2 : (pyRound q : ℚ) < (n : ℚ) + 1 := lt_of_le_of_lt h1 (by linarith)
  have h3 : pyRound q < n + 1 := by exact_mod_cast h2
  omega

theorem int_le_pyRound {q : ℚ} {n : ℤ} (h : (n : ℚ) < q) : n ≤ pyRound q := by
  have h1 : (n : ℚ) - 1/2 < (pyRound q : ℚ) := lt_of_lt_of_le (by linarith) (le_pyRound q)
  have h2 : (n : ℚ) - 1 < (pyRound q : ℚ) := by linarith
  have h3 : n - 1 < pyRound q := by exact_mod_cast h2
  omega

theorem isOkE_ok {α : Type} (a : α) : isOkE (.ok a) = true := rfl

theorem isOkE_error {α : Type} (e : PyError) : isOkE (.error e : Except PyError α) = false := rfl

theorem mkImageDimensions_ok {w h : ℤ} {r : ImageDimensions}
    (hr : mkImageDimensions w h = .ok r) :
    r.width = w ∧ r.height = h ∧ 0 < w ∧ 0 < h := by
  unfold mkImageDimensions at hr
  split at hr
  · exact absurd hr (by simp)
  · rename_i hcond
    push_neg at hcond
    cases hr
    exact ⟨rfl, rfl, by omega, by omega⟩

theorem mkImageDimensions_ok_of_pos {w h : ℤ} (hw : 0 < w) (hh : 0 < h) :
    mkImageDimensions w h = .ok ⟨w, h⟩ := by
  unfold mkImageDimensions
  rw [if_neg]
  push_neg
  omega

theorem mkImageDimensions_error_of_nonpos {w h : ℤ} (hwh : w ≤ 0 ∨ h ≤ 0) :
    ∃ msg, mkImageDimensions w h = .error (.processingError msg) :=
  ⟨"Invalid image dimensions: " ++ toString w ++ "x" ++ toString h
      ++ ". Both must be positive integers.",
    by unfold mkImageDimensions; rw [if_pos hwh]⟩

/-! ## Lemmas about `fitScale` and `scale_to_fit` -/

/-- With positive bounds the guard of `scale_to_fit` passes and the function
is the rounded-scaling of both sides fed to the validating constructor. -/
theorem scale_to_fit_eq (d : ImageDimensions) {W H : ℤ} (hW : 0 < W) (hH : 0 < H) :
    d.scale_to_fit W H =
      mkImageDimensions (pyRound ((d.width : ℚ) * fitScale d W H))
        (pyRound ((d.height : ℚ) * fitScale d W H)) := by
  rw [ImageDimensions.scale_to_fit, if_neg (by omega)]

theorem fitScale_mul_width_le (d : ImageDimensions) (hw : 0 < d.width) (W H : ℤ) :
    (d.width : ℚ) * fitScale d W H ≤ (W : ℚ) := by
  have hwQ : (0 : ℚ) < (d.width : ℚ) := by exact_mod_cast hw
  calc (d.width : ℚ) * fitScale d W H
      ≤ (d.width : ℚ) * ((W : ℚ) / (d.width : ℚ)) :=
        mul_le_mul_of_nonneg_left (min_le_left _ _) (le_of_lt hwQ)
    _ = (W : ℚ) := by field_simp

theorem fitScale_mul_height_le (d : ImageDimensions) (hh : 0 < d.height) (W H : ℤ) :
    (d.height : ℚ) * fitScale d W H ≤ (H : ℚ) := by
  have hhQ : (0 : ℚ) < (d.height : ℚ) := by exact_mod_cast hh
  calc (d.height : ℚ) * fitScale d W H
      ≤ (d.height : ℚ) * ((H : ℚ) / (d.height : ℚ)) :=
        mul_le_mul_of_nonneg_left (min_le_right _ _) (le_of_lt hhQ)
    _ = (H : ℚ) := by field_simp

theorem fitScale_pos (d : ImageDimensions) (hw : 0 < d.width) (hh : 0 < d.height)
    {W H : ℤ} (hW : 0 < W) (hH : 0 < H) : 0 < fitScale d W H := by
  have hwQ : (0 : ℚ) < (d.width : ℚ) := by exact_mod_cast hw
  have hhQ : (0 : ℚ) < (d.height : ℚ) := by exact_mod_cast hh
  have hWQ : (0 : ℚ) < (W : ℚ) := by exact_mod_cast hW
  have hHQ : (0 : ℚ) < (H : ℚ) := by exact_mod_cast hH
  exact lt_min (div_pos hWQ hwQ) (div_pos hHQ hhQ)

/-! ## Concrete evaluations of `scale_to_fit` -/

theorem fitScale_landscape_example : fitScale ⟨1920, 1080⟩ 1080 1920 = 9/16 := by
  rw [fitScale, min_def]
  norm_num

theorem scale_to_fit_landscape_example :
    ImageDimensions.scale_to_fit ⟨1920, 1080⟩ 1080 1920 = .ok ⟨1080, 608⟩ := by
  simp only [ImageDimensions.scale_to_fit, fitScale_landscape_example]
  rw [if_neg (by norm_num)]
  norm_num [pyRound, mkImageDimensions]

theorem fitScale_extreme_example : fitScale ⟨10000, 1⟩ 100 100 = 1/100 := by
  rw [fitScale, min_def]
  norm_num

theorem pyRound_extreme_example : pyRound ((1 : ℚ) * (1/100)) = 0 := by
  norm_num [pyRound]

theorem scale_to_fit_extreme_example :
    isOkE (ImageDimensions.scale_to_fit ⟨10000, 1⟩ 100 100) = false := by
  simp only [ImageDimensions.scale_to_fit, fitScale_extreme_example]
  rw [if_neg (by norm_num)]
  norm_num [pyRound, mkImageDimensions, isOkE]

theorem fitScale_identity_example : fitScale ⟨1080, 1920⟩ 1080 1920 = 1 := by
  rw [fitScale, min_def]
  norm_num

theorem scale_to_fit_identity_example :
    ImageDimensions.scale_to_fit ⟨1080, 1920⟩ 1080 1920 = .ok ⟨1080, 1920⟩ := by
  simp only [ImageDimensions.scale_to_fit, fitScale_identity_example]
  rw [if_neg (by norm_num)]
  norm_num [pyRound, mkImageDimensions]

theorem fitScale_narrow_example : fitScale ⟨5000, 1⟩ 50 50 = 1/100 := by
  rw [fitScale, min_def]
  norm_num

theorem scale_to_fit_narrow_example :
    isOkE (ImageDimensions.scale_to_fit ⟨5000, 1⟩ 50 50) = false := by
  simp only [ImageDimensions.scale_to_fit, fitScale_narrow_example]
  rw [if_neg (by norm_num)]
  norm_num [pyRound, mkImageDimensions, isOkE]

/-! ## Claim C1 -/

/-- Claim C1 counterexample: the claim promises that `scale_to_fit` returns
dimensions for every positive original and positive bounds, but at original
10000×1 with bounds 100×100 the height rounds to 0 and the call raises
`ProcessingError` instead of returning. -/
theorem claim_C1_counterexample :
    isOkE (ImageDimensions.scale_to_fit ⟨10000, 1⟩ 100 100) = false :=
  scale_to_fit_extreme_example

/-- Claim C1 (amended): for every original with positive width and height and
every pair of positive bounds, whenever `scale_to_fit` returns dimensions
(w, h) — it raises instead when a side rounds to zero — then w ≤ W and h ≤ H,
each returned side differs from the exactly-scaled side by at most 1/2 (so the
aspect ratio is preserved up to rounding tolerance), and the limiting
dimension (the one whose bound-to-original ratio is the smaller) equals its
bound exactly. -/
theorem scale_to_fit_fits_and_preserves_ratio (d : ImageDimensions)
    (hw : 0 < d.width) (hh : 0 < d.height)
    (W H : ℤ) (hW : 0 < W) (hH : 0 < H) (r : ImageDimensions)
    (hr : d.scale_to_fit W H = .ok r) :
    r.width ≤ W ∧ r.height ≤ H ∧
    |(r.width : ℚ) - (d.width : ℚ) * fitScale d W H| ≤ 1/2 ∧
    |(r.height : ℚ) - (d.height : ℚ) * fitScale d W H| ≤ 1/2 ∧
    ((W : ℚ) / (d.width : ℚ) ≤ (H : ℚ) / (d.height : ℚ) → r.width = W) ∧
    ((H : ℚ) / (d.height : ℚ) ≤ (W : ℚ) / (d.width : ℚ) → r.height = H) := by
  rw [scale_to_fit_eq d hW hH] at hr
  obtain ⟨hrw, hrh, -, -⟩ := mkImageDimensions_ok hr
  have hwQ : ((d.width : ℚ)) ≠ 0 := by
    have : (0 : ℚ) < (d.width : ℚ) := by exact_mod_cast hw
    exact ne_of_gt this
  have hhQ : ((d.height : ℚ)) ≠ 0 := by
    have : (0 : ℚ) < (d.height : ℚ) := by exact_mod_cast hh
    exact ne_of_gt this
  refine ⟨?_, ?_, ?_, ?_, ?_, ?_⟩
  · rw [hrw]
    exact pyRound_le_of_le_int (fitScale_mul_width_le d hw W H)
  · rw [hrh]
    exact pyRound_le_of_le_int (fitScale_mul_height_le d hh W H)
  · rw [hrw]
    exact abs_pyRound_sub _
  · rw [hrh]
    exact abs_pyRound_sub _
  · intro hle
    have hs : fitScale d W H = (W : ℚ) / (d.width : ℚ) := min_eq_left hle
    rw [hrw, hs, mul_div_cancel₀ _ hwQ, pyRound_intCast]
  · intro hle
    have hs : fitScale d W H = (H : ℚ) / (d.height : ℚ) := min_eq_right hle
    rw [hrh, hs, mul_div_cancel₀ _ hhQ, pyRound_intCast]

/-- Claim C1 witness: spec scenario 2, a 1920×1080 landscape original on the
1080×1920 portrait canvas, fitted to 1080×608. -/
theorem claim_C1_witness :
    (⟨1080, 608⟩ : ImageDimensions).width ≤ 1080 ∧
    (⟨1080, 608⟩ : ImageDimensions).height ≤ 1920 ∧
    |((⟨1080, 608⟩ : ImageDimensions).width : ℚ) -
        ((⟨1920, 1080⟩ : ImageDimensions).width : ℚ) * fitScale ⟨1920, 1080⟩ 1080 1920| ≤ 1/2 ∧
    |((⟨1080, 608⟩ : ImageDimensions).height : ℚ) -
        ((⟨1920, 1080⟩ : ImageDimensions).height : ℚ) * fitScale ⟨1920, 1080⟩ 1080 1920| ≤ 1/2 ∧
    ((1080 : ℚ) / ((⟨1920, 1080⟩ : ImageDimensions).width : ℚ) ≤
        (1920 : ℚ) / ((⟨1920, 1080⟩ : ImageDimensions).height : ℚ) →
      (⟨1080, 608⟩ : ImageDimensions).width = 1080) ∧
    ((1920 : ℚ) / ((⟨1920, 1080⟩ : ImageDimensions).height : ℚ) ≤
        (1080 : ℚ) / ((⟨1920, 1080⟩ : ImageDimensions).width : ℚ) →
      (⟨1080, 608⟩ : ImageDimensions).height = 1920) :=
  scale_to_fit_fits_and_preserves_ratio ⟨1920, 1080⟩ (by decide) (by decide)
    1080 1920 (by decide) (by decide) ⟨1080, 608⟩ scale_to_fit_landscape_example

/-! ## Claim C3 -/

/-- Claim C3 counterexample: no clamping to 1 happens.  At original 5000×1
with bounds 50×50 the height rounds to 0; instead of returning a clamped
50×1 result the call raises, so `scale_to_fit` returns nothing at all. -/
theorem claim_C3_counterexample :
    isOkE (ImageDimensions.scale_to_fit ⟨5000, 1⟩ 50 50) = false :=
  scale_to_fit_narrow_example

/-- Claim C3 (amended): whenever `scale_to_fit` does return, both outputs are
positive integers ≥ 1; but when rounding would yield 0 for a dimension the
code does not clamp to 1 — the `ImageDimensions` constructor raises
`ProcessingError` and no result is produced. -/
theorem scale_to_fit_outputs_ge_one (d : ImageDimensions) (W H : ℤ)
    (r : ImageDimensions) (hr : d.scale_to_fit W H = .ok r) :
    1 ≤ r.width ∧ 1 ≤ r.height := by
  by_cases hWH : W ≤ 0 ∨ H ≤ 0
  · rw [ImageDimensions.scale_to_fit, if_pos hWH] at hr
    exact absurd hr (by simp)
  · push_neg at hWH
    rw [scale_to_fit_eq d (by omega) (by omega)] at hr
    obtain ⟨hrw, hrh, h1, h2⟩ := mkImageDimensions_ok hr
    omega

/-- Claim C3 witness: the already-exact-fit original 1080×1920 yields the
positive result 1080×1920. -/
theorem claim_C3_witness :
    1 ≤ (⟨1080, 1920⟩ : ImageDimensions).width ∧
    1 ≤ (⟨1080, 1920⟩ : ImageDimensions).height :=
  scale_to_fit_outputs_ge_one ⟨1080, 1920⟩ 1080 1920 ⟨1080, 1920⟩
    scale_to_fit_identity_example

/-! ## Claim C8 -/

/-- Claim C8: no upscaling restriction.  For an original strictly smaller than
both bounds the scale exceeds 1, the call succeeds, and both fitted sides are
at least the original's. -/
theorem scale_to_fit_upscales (d : ImageDimensions)
    (hw : 0 < d.width) (hh : 0 < d.height)
    (W H : ℤ) (hW : d.width < W) (hH : d.height < H) :
    1 < fitScale d W H ∧
    ∃ r, d.scale_to_fit W H = .ok r ∧ d.width ≤ r.width ∧ d.height ≤ r.height := by
  have hwQ : (0 : ℚ) < (d.width : ℚ) := by exact_mod_cast hw
  have hhQ : (0 : ℚ) < (d.height : ℚ) := by exact_mod_cast hh
  have hWQ : ((d.width : ℚ)) < (W : ℚ) := by exact_mod_cast hW
  have hHQ : ((d.height : ℚ)) < (H : ℚ) := by exact_mod_cast hH
  have hs : 1 < fitScale d W H :=
    lt_min ((one_lt_div hwQ).mpr hWQ) ((one_lt_div hhQ).mpr hHQ)
  have hwlt : (d.width : ℚ) < (d.width : ℚ) * fitScale d W H :=
    (lt_mul_iff_one_lt_right hwQ).mpr hs
  have hhlt : (d.height : ℚ) < (d.height : ℚ) * fitScale d W H :=
    (lt_mul_iff_one_lt_right hhQ).mpr hs
  have hwle : d.width ≤ pyRound ((d.width : ℚ) * fitScale d W H) := int_le_pyRound hwlt
  have hhle : d.height ≤ pyRound ((d.height : ℚ) * fitScale d W H) := int_le_pyRound hhlt
  refine ⟨hs, ⟨pyRound ((d.width : ℚ) * fitScale d W H),
    pyRound ((d.height : ℚ) * fitScale d W H)⟩, ?_, hwle, hhle⟩
  rw [scale_to_fit_eq d (by omega) (by omega)]
  exact mkImageDimensions_ok_of_pos (by omega) (by omega)

/-- Claim C8 witness: a 500×500 original strictly inside the 1080×1920 canvas
is scaled up. -/
theorem claim_C8_witness :
    1 < fitScale ⟨500, 500⟩ 1080 1920 ∧
    ∃ r, (⟨500, 500⟩ : ImageDimensions).scale_to_fit 1080 1920 = .ok r ∧
      (⟨500, 500⟩ : ImageDimensions).width ≤ r.width ∧
      (⟨500, 500⟩ : ImageDimensions).height ≤ r.height :=
  scale_to_fit_upscales ⟨500, 500⟩ (by decide) (by decide) 1080 1920 (by decide) (by decide)

/-! ## Claim C10 -/

/-- Claim C10: `scale_to_fit` never returns a result with a zero or negative
side; whenever rounding yields 0 for either scaled side (with positive
bounds), the call raises `ProcessingError` through the constructor's
positivity check instead of returning a zero-dimension result. -/
theorem scale_to_fit_never_returns_nonpositive (d : ImageDimensions) (W H : ℤ)
    (hW : 0 < W) (hH : 0 < H) :
    (∀ r, d.scale_to_fit W H = .ok r → 0 < r.width ∧ 0 < r.height) ∧
    (pyRound ((d.width : ℚ) * fitScale d W H) = 0 ∨
        pyRound ((d.height : ℚ) * fitScale d W H) = 0 →
      ∃ msg, d.scale_to_fit W H = .error (.processingError msg)) := by
  constructor
  · intro r hr
    rw [scale_to_fit_eq d hW hH] at hr
    obtain ⟨hrw, hrh, h1, h2⟩ := mkImageDimensions_ok hr
    omega
  · intro h0
    rw [scale_to_fit_eq d hW hH]
    exact mkImageDimensions_error_of_nonpos (by omega)

/-- Claim C10 witness: at original 10000×1 with bounds 100×100 the positive
bound hypotheses hold concretely. -/
theorem claim_C10_witness :
    (∀ r, (⟨10000, 1⟩ : ImageDimensions).scale_to_fit 100 100 = .ok r →
      0 < r.width ∧ 0 < r.height) ∧
    (pyRound (((⟨10000, 1⟩ : ImageDimensions).width : ℚ) * fitScale ⟨10000, 1⟩ 100 100) = 0 ∨
        pyRound (((⟨10000, 1⟩ : ImageDimensions).height : ℚ) * fitScale ⟨10000, 1⟩ 100 100) = 0 →
      ∃ msg, (⟨10000, 1⟩ : ImageDimensions).scale_to_fit 100 100 =
        .error (.processingError msg)) :=
  scale_to_fit_never_returns_nonpositive ⟨10000, 1⟩ 100 100 (by decide) (by decide)

/-! ## Claim C6 -/

/-- Claim C6: for a resampled image of size (w, h) with w ≤ W, h ≤ H, the
composite step allocates a canvas of exactly the tablet's (W, H) filled with
the background color, pastes at offset ((W-w)//2, (H-h)//2) (floor division),
and any 1px residual of odd padding goes to the right/bottom margin, favoring
the top/left edge. -/
theorem create_padded_image_centered (resized_img : Canvas) (tablet_preset : TabletPreset)
    (background_color : RGB) (x y x0 y0 : ℤ)
    (hx0 : x0 = Int.fdiv (tablet_preset.width - resized_img.width) 2)
    (hy0 : y0 = Int.fdiv (tablet_preset.height - resized_img.height) 2)
    (_hw : resized_img.width ≤ tablet_preset.width)
    (_hh : resized_img.height ≤ tablet_preset.height) :
    (create_padded_image resized_img tablet_preset background_color).width =
      tablet_preset.width ∧
    (create_padded_image resized_img tablet_preset background_color).height =
      tablet_preset.height ∧
    (¬(x0 ≤ x ∧ x < x0 + resized_img.width ∧ y0 ≤ y ∧ y < y0 + resized_img.height) →
      (create_padded_image resized_img tablet_preset background_color).pixel x y =
        background_color) ∧
    ((x0 ≤ x ∧ x < x0 + resized_img.width ∧ y0 ≤ y ∧ y < y0 + resized_img.height) →
      (create_padded_image resized_img tablet_preset background_color).pixel x y =
        resized_img.pixel (x - x0) (y - y0)) ∧
    x0 ≤ tablet_preset.width - resized_img.width - x0 ∧
    tablet_preset.width - resized_img.width - x0 ≤ x0 + 1 ∧
    y0 ≤ tablet_preset.height - resized_img.height - y0 ∧
    tablet_preset.height - resized_img.height - y0 ≤ y0 + 1 := by
  have hex : Int.fdiv (tablet_preset.width - resized_img.width) 2 =
      (tablet_preset.width - resized_img.width) / 2 :=
    Int.fdiv_eq_ediv _ (by norm_num)
  have hey : Int.fdiv (tablet_preset.height - resized_img.height) 2 =
      (tablet_preset.height - resized_img.height) / 2 :=
    Int.fdiv_eq_ediv _ (by norm_num)
  subst hx0 hy0
  refine ⟨rfl, rfl, ?_, ?_, ?_, ?_, ?_, ?_⟩
  · intro hout
    simp only [create_padded_image, pastedCanvas]
    rw [if_neg hout]
  · intro hin
    simp only [create_padded_image, pastedCanvas]
    rw [if_pos hin]
  · rw [hex]; omega
  · rw [hex]; omega
  · rw [hey]; omega
  · rw [hey]; omega

/-- Claim C6 witness: the 920×1920 resized image on the 1080×1920 preset is
pasted at offset (80, 0); the probed pixel (0, 0) lies in the left margin. -/
theorem claim_C6_witness :
    (create_padded_image sampleResized samplePreset (0, 0, 0)).width =
      samplePreset.width ∧
    (create_padded_image sampleResized samplePreset (0, 0, 0)).height =
      samplePreset.height ∧
    (¬((80 : ℤ) ≤ 0 ∧ (0 : ℤ) < 80 + sampleResized.width ∧ (0 : ℤ) ≤ 0 ∧
        (0 : ℤ) < 0 + sampleResized.height) →
      (create_padded_image sampleResized samplePreset (0, 0, 0)).pixel 0 0 = (0, 0, 0)) ∧
    (((80 : ℤ) ≤ 0 ∧ (0 : ℤ) < 80 + sampleResized.width ∧ (0 : ℤ) ≤ 0 ∧
        (0 : ℤ) < 0 + sampleResized.height) →
      (create_padded_image sampleResized samplePreset (0, 0, 0)).pixel 0 0 =
        sampleResized.pixel (0 - 80) (0 - 0)) ∧
    (80 : ℤ) ≤ samplePreset.width - sampleResized.width - 80 ∧
    samplePreset.width - sampleResized.width - 80 ≤ 80 + 1 ∧
    (0 : ℤ) ≤ samplePreset.height - sampleResized.height - 0 ∧
    samplePreset.height - sampleResized.height - 0 ≤ 0 + 1 :=
  create_padded_image_centered sampleResized samplePreset (0, 0, 0) 0 0 80 0
    (by decide) (by decide) (by decide) (by decide)

/-! ## Claim C9 -/

/-- Claim C9: every successfully constructed `ProcessingResult` has success
and error mutually exclusive and exhaustive and a non-negative file size when
present; each violating combination of arguments makes construction fail. -/
theorem mkProcessingResult_invariant (input_file output_file : String) (success : Bool)
    (error : Option String) (file_size_mb : Option ℚ)
    (scaled_dimensions : Option (ℤ × ℤ)) :
    (∀ r, mkProcessingResult input_file output_file success error file_size_mb
        scaled_dimensions = .ok r →
      ((r.success = true → r.error = none) ∧
       (r.success = false → r.error ≠ none) ∧
       (∀ q, r.file_size_mb = some q → 0 ≤ q))) ∧
    (success = true ∧ error ≠ none →
      isOkE (mkProcessingResult input_file output_file success error file_size_mb
        scaled_dimensions) = false) ∧
    (success = false ∧ error = none →
      isOkE (mkProcessingResult input_file output_file success error file_size_mb
        scaled_dimensions) = false) ∧
    (∀ q, file_size_mb = some q → q < 0 →
      isOkE (mkProcessingResult input_file output_file success error file_size_mb
        scaled_dimensions) = false) := by
  unfold mkProcessingResult
  refine ⟨?_, ?_, ?_, ?_⟩
  · intro r hr
    split at hr
    · exact absurd hr (by simp)
    · split at hr
      · exact absurd hr (by simp)
      · rename_i h1 h2
        split at hr
        · rename_i q hq
          split at hr
          · exact absurd hr (by simp)
          · rename_i hq0
            cases hr
            refine ⟨fun hs => ?_, fun hs => ?_, fun q' hq' => ?_⟩
            · by_contra hne
              exact h1 ⟨hs, hne⟩
            · intro henone
              exact h2 ⟨hs, henone⟩
            · simp only [Option.some.injEq] at hq'
              rw [← hq']
              exact not_lt.mp hq0
        · cases hr
          refine ⟨fun hs => ?_, fun hs => ?_, fun q' hq' => ?_⟩
          · by_contra hne
            exact h1 ⟨hs, hne⟩
          · intro henone
            exact h2 ⟨hs, henone⟩
          · simp at hq'
  · intro hviol
    rw [if_pos hviol]
    rfl
  · intro hviol
    rw [if_neg (by simp [hviol.1, hviol.2]), if_pos hviol]
    rfl
  · intro q hq hq0
    by_cases h1 : success = true ∧ error ≠ none
    · rw [if_pos h1]; rfl
    · rw [if_neg h1]
      by_cases h2 : success = false ∧ error = none
      · rw [if_pos h2]; rfl
      · rw [if_neg h2, hq]
        simp [hq0, isOkE]

/-- Claim C9 witness: a concrete violating construction (success together with
an error message) fails. -/
theorem claim_C9_witness :
    (∀ r, mkProcessingResult "a.jpg" "out/a.jpg" true (some "boom") none none = .ok r →
      ((r.success = true → r.error = none) ∧
       (r.success = false → r.error ≠ none) ∧
       (∀ q, r.file_size_mb = some q → 0 ≤ q))) ∧
    ((true = true ∧ (some "boom" : Option String) ≠ none) →
      isOkE (mkProcessingResult "a.jpg" "out/a.jpg" true (some "boom") none none) = false) ∧
    ((true = false ∧ (some "boom" : Option String) = none) →
      isOkE (mkProcessingResult "a.jpg" "out/a.jpg" true (some "boom") none none) = false) ∧
    (∀ q, (none : Option ℚ) = some q → q < 0 →
      isOkE (mkProcessingResult "a.jpg" "out/a.jpg" true (some "boom") none none) = false) :=
  mkProcessingResult_invariant "a.jpg" "out/a.jpg" true (some "boom") none none

/-! ## Claim C2: the per-file pipeline never lets an exception escape -/

theorem ne_empty_of_length_pos {s : String} (h : 0 < s.length) : s ≠ "" := by
  intro hc
  rw [hc] at h
  exact absurd h (by decide)

theorem length_append_pos (p s : String) (hp : 0 < p.length) :
    0 < (p ++ s).length := by
  rw [String.length_append]
  omega

theorem ok_ne_error {α : Type} (a : α) (e : PyError) :
    (Except.ok a : Except PyError α) ≠ .error e := fun h => nomatch h

/-- Inversion for a failing `Except` bind: either the first stage failed with
the same exception, or it succeeded and the continuation failed. -/
theorem except_bind_error {α β : Type} (x : Except PyError α) (f : α → Except PyError β)
    (e : PyError) (h : x >>= f = .error e) :
    x = .error e ∨ ∃ a, x = .ok a ∧ f a = .error e := by
  cases x with
  | error e1 =>
      left
      have h2 : (Except.error e1 : Except PyError β) = .error e := by
        simpa only [bind, Except.bind] using h
      injection h2 with h3
      rw [h3]
  | ok a =>
      right
      exact ⟨a, rfl, by simpa only [bind, Except.bind] using h⟩

theorem load_image_error_nonempty (env : Env) (input_path : String) (e : PyError)
    (he : load_image env input_path = .error e) : caughtMessage e ≠ "" := by
  unfold load_image at he
  split at he
  · cases he
    simp only [caughtMessage]
    apply ne_empty_of_length_pos
    repeat apply length_append_pos
    decide
  · split at he
    · exact absurd he (ok_ne_error _ _)
    · cases he
      simp only [caughtMessage]
      apply ne_empty_of_length_pos
      repeat apply length_append_pos
      decide
    · cases he
      simp only [caughtMessage]
      apply ne_empty_of_length_pos
      repeat apply length_append_pos
      decide

theorem validate_image_error_nonempty (img : PyImage) (min_width : ℤ) (e : PyError)
    (he : validate_image img min_width = .error e) : caughtMessage e ≠ "" := by
  unfold validate_image at he
  split at he
  · cases he
    simp only [caughtMessage]
    apply ne_empty_of_length_pos
    repeat apply length_append_pos
    decide
  · split at he
    · cases he
      simp only [caughtMessage]
      apply ne_empty_of_length_pos
      repeat apply length_append_pos
      decide
    · unfold mkImageDimensions at he
      split at he
      · cases he
        simp only [caughtMessage]
        apply ne_empty_of_length_pos
        repeat apply length_append_pos
        decide
      · exact absurd he (ok_ne_error _ _)

theorem scale_to_fit_error_nonempty (d : ImageDimensions) (W H : ℤ) (e : PyError)
    (he : d.scale_to_fit W H = .error e) : caughtMessage e ≠ "" := by
  unfold ImageDimensions.scale_to_fit at he
  split at he
  · cases he
    simp only [caughtMessage]
    apply ne_empty_of_length_pos
    repeat apply length_append_pos
    decide
  · unfold mkImageDimensions at he
    split at he
    · cases he
      simp only [caughtMessage]
      apply ne_empty_of_length_pos
      repeat apply length_append_pos
      decide
    · exact absurd he (ok_ne_error _ _)

theorem calculate_scaled_dimensions_error_nonempty (d : ImageDimensions)
    (tp : TabletPreset) (e : PyError)
    (he : calculate_scaled_dimensions d tp = .error e) : caughtMessage e ≠ "" := by
  unfold calculate_scaled_dimensions at he
  rcases except_bind_error _ _ _ he with h | ⟨s, -, hf⟩
  · exact scale_to_fit_error_nonempty d tp.width tp.height e h
  · exact absurd hf (ok_ne_error _ _)

theorem resize_image_error_nonempty (env : Env) (p : String) (e : PyError)
    (he : resize_image env p = .error e) : caughtMessage e ≠ "" := by
  unfold resize_image at he
  split at he
  · exact absurd he (ok_ne_error _ _)
  · cases he
    simp only [caughtMessage]
    apply ne_empty_of_length_pos
    repeat apply length_append_pos
    decide

theorem create_padded_image_checked_error_nonempty (env : Env) (p : String) (e : PyError)
    (he : create_padded_image_checked env p = .error e) : caughtMessage e ≠ "" := by
  unfold create_padded_image_checked at he
  split at he
  · exact absurd he (ok_ne_error _ _)
  · cases he
    simp only [caughtMessage]
    apply ne_empty_of_length_pos
    repeat apply length_append_pos
    decide
  · cases he
    simp only [caughtMessage, PyError.msg]
    apply ne_empty_of_length_pos
    repeat apply length_append_pos
    decide

theorem save_image_error_nonempty (env : Env) (p : String) (e : PyError)
    (he : save_image env p = .error e) : caughtMessage e ≠ "" := by
  unfold save_image at he
  split at he
  · exact absurd he (ok_ne_error _ _)
  · cases he
    simp only [caughtMessage]
    apply ne_empty_of_length_pos
    repeat apply length_append_pos
    decide
  · cases he
    simp only [caughtMessage]
    apply ne_empty_of_length_pos
    repeat apply length_append_pos
    decide

theorem stat_size_error_nonempty (env : Env) (p : String) (e : PyError)
    (he : stat_size env p = .error e) : caughtMessage e ≠ "" := by
  unfold stat_size at he
  split at he
  · exact absurd he (ok_ne_error _ _)
  · cases he
    simp only [caughtMessage, PyError.msg]
    apply ne_empty_of_length_pos
    repeat apply length_append_pos
    decide

/-- Every exception the try body can produce carries a non-empty recorded
message once `process_screenshot`'s handlers format it. -/
theorem pipelineBody_error_nonempty (env : Env) (config : ScreenshotConfig) (e : PyError)
    (he : pipelineBody env config = .error e) : caughtMessage e ≠ "" := by
  unfold pipelineBody at he
  rcases except_bind_error _ _ _ he with h | ⟨img, -, he⟩
  · exact load_image_error_nonempty env config.input_path e h
  rcases except_bind_error _ _ _ he with h | ⟨od, -, he⟩
  · exact validate_image_error_nonempty img 100 e h
  rcases except_bind_error _ _ _ he with h | ⟨sc, -, he⟩
  · exact calculate_scaled_dimensions_error_nonempty od config.tablet_preset e h
  rcases except_bind_error _ _ _ he with h | ⟨u1, -, he⟩
  · exact resize_image_error_nonempty env config.input_path e h
  rcases except_bind_error _ _ _ he with h | ⟨u2, -, he⟩
  · exact create_padded_image_checked_error_nonempty env config.input_path e h
  rcases except_bind_error _ _ _ he with h | ⟨u3, -, he⟩
  · exact save_image_error_nonempty env config.output_path e h
  rcases except_bind_error _ _ _ he with h | ⟨fs, -, he⟩
  · exact stat_size_error_nonempty env config.output_path e h
  · exact absurd he (ok_ne_error _ _)

/-- A missing input file fails the very first pipeline step. -/
theorem pipelineBody_of_missing_file (env : Env) (config : ScreenshotConfig)
    (hex : env.fileExists config.input_path = false) :
    pipelineBody env config =
      .error (.processingError ("Input file not found: " ++ config.input_path)) := by
  unfold pipelineBody load_image
  rw [if_pos hex]
  rfl

theorem mkProcessingResult_ok_success (input_file output_file : String) (q : ℚ)
    (hq : 0 ≤ q) (sc : Option (ℤ × ℤ)) :
    mkProcessingResult input_file output_file true none (some q) sc =
      .ok ⟨input_file, output_file, true, none, some q, sc⟩ := by
  unfold mkProcessingResult
  rw [if_neg (by simp), if_neg (by simp)]
  simp [not_lt.mpr hq]

theorem mkProcessingResult_ok_failure (input_file output_file m : String) :
    mkProcessingResult input_file output_file false (some m) none none =
      .ok ⟨input_file, output_file, false, some m, none, none⟩ := by
  unfold mkProcessingResult
  rw [if_neg (by simp), if_neg (by simp)]

/-- Claim C2: for every environment and per-file configuration,
`process_screenshot` returns a `ProcessingResult` (no exception escapes, not
even from the result constructor); a pipeline failure at any stage yields
success = false with a non-empty error message; success carries no error
message; and a nonexistent input file is one such failure. -/
theorem process_screenshot_never_raises (env : Env) (config : ScreenshotConfig) :
    ∃ res, process_screenshot env config = .ok res ∧
      (res.success = true → res.error = none) ∧
      (res.success = false → ∃ m, res.error = some m ∧ m ≠ "") ∧
      (∀ e, pipelineBody env config = .error e → res.success = false) ∧
      (env.fileExists config.input_path = false → res.success = false) := by
  cases hp : pipelineBody env config with
  | ok val =>
      obtain ⟨scaled, fs⟩ := val
      refine ⟨⟨config.input_path, config.output_path, true, none,
        some ((fs : ℚ) / (1024 * 1024)), some scaled⟩, ?_, ?_, ?_, ?_, ?_⟩
      · unfold process_screenshot
        rw [hp]
        exact mkProcessingResult_ok_success _ _ _ (by positivity) _
      · intro _
        rfl
      · intro hfalse
        exact absurd hfalse (by simp)
      · intro e he
        exact absurd he (ok_ne_error _ _)
      · intro hex
        have := pipelineBody_of_missing_file env config hex
        rw [hp] at this
        exact absurd this.symm (by simp)
  | error e =>
      refine ⟨⟨config.input_path, config.output_path, false,
        some (caughtMessage e), none, none⟩, ?_, ?_, ?_, ?_, ?_⟩
      · unfold process_screenshot
        rw [hp]
        exact mkProcessingResult_ok_failure _ _ _
      · intro htrue
        exact absurd htrue (by simp)
      · intro _
        exact ⟨caughtMessage e, rfl, pipelineBody_error_nonempty env config e hp⟩
      · intro _ _
        rfl
      · intro _
        rfl

/-- Claim C2 witness: the environment in which the input file does not exist —
spec scenario 4 — still yields a well-formed failure result. -/
theorem claim_C2_witness :
    ∃ res, process_screenshot sampleEnv sampleConfig = .ok res ∧
      (res.success = true → res.error = none) ∧
      (res.success = false → ∃ m, res.error = some m ∧ m ≠ "") ∧
      (∀ e, pipelineBody sampleEnv sampleConfig = .error e → res.success = false) ∧
      (sampleEnv.fileExists sampleConfig.input_path = false → res.success = false) :=
  process_screenshot_never_raises sampleEnv sampleConfig

/-! ## Claim C5 -/

/-- Claim C5: for a readable input directory, `process_directory` discovers the
files matching the default `*.jpg` glob, processes them in lexicographic order
by filename (one result per discovered file, in that order, as a map over the
sorted discovery list), and a non-matching or empty directory yields `[]`
rather than an error. -/
theorem process_directory_deterministic (gen : GenConfig) (env : Env) (dir : InputDir)
    (hok : dir.validation = .ok ()) :
    process_directory gen env dir =
      (get_screenshot_files dir.listing ".jpg").map (process_image gen env) ∧
    List.Sorted (· ≤ ·) (get_screenshot_files dir.listing ".jpg") ∧
    (get_screenshot_files dir.listing ".jpg").Perm
      (dir.listing.filter (globStarMatches ".jpg")) ∧
    (get_screenshot_files dir.listing ".jpg").all (globStarMatches ".jpg") = true ∧
    (process_directory gen env dir).length =
      (get_screenshot_files dir.listing ".jpg").length ∧
    (dir.listing.filter (globStarMatches ".jpg") = [] →
      process_directory gen env dir = []) := by
  have h1 : process_directory gen env dir =
      (get_screenshot_files dir.listing ".jpg").map (process_image gen env) := by
    unfold process_directory
    rw [hok]
  refine ⟨h1, ?_, ?_, ?_, ?_, ?_⟩
  · unfold get_screenshot_files
    exact List.sorted_insertionSort _ _
  · unfold get_screenshot_files
    exact List.perm_insertionSort _ _
  · rw [List.all_eq_true]
    intro x hx
    unfold get_screenshot_files at hx
    have hx2 : x ∈ dir.listing.filter (globStarMatches ".jpg") :=
      (List.mem_insertionSort _).mp hx
    exact List.of_mem_filter hx2
  · rw [h1, List.length_map]
  · intro hnil
    rw [h1]
    unfold get_screenshot_files
    rw [hnil]
    rfl

/-- Claim C5 witness: the sample directory (three matching files listed out of
order, one of them hidden, plus one `.png`) with the all-loads-fail
environment. -/
theorem claim_C5_witness :
    process_directory sampleGen sampleEnv sampleDir =
      (get_screenshot_files sampleDir.listing ".jpg").map
        (process_image sampleGen sampleEnv) ∧
    List.Sorted (· ≤ ·) (get_screenshot_files sampleDir.listing ".jpg") ∧
    (get_screenshot_files sampleDir.listing ".jpg").Perm
      (sampleDir.listing.filter (globStarMatches ".jpg")) ∧
    (get_screenshot_files sampleDir.listing ".jpg").all (globStarMatches ".jpg") = true ∧
    (process_directory sampleGen sampleEnv sampleDir).length =
      (get_screenshot_files sampleDir.listing ".jpg").length ∧
    (sampleDir.listing.filter (globStarMatches ".jpg") = [] →
      process_directory sampleGen sampleEnv sampleDir = []) :=
  process_directory_deterministic sampleGen sampleEnv sampleDir rfl

/-! ## Claim C4 -/

/-- Claim C4 counterexample: the "partial failure" exit code (a run with one
failed file) is 1, the very same code a fatal `ConfigError` produces — they
are not distinct; moreover a run with zero results (hence zero failures) also
exits 1, not success. -/
theorem claim_C4_counterexample :
    main_exit (.completed [sampleFailedResult]) = 1 ∧
    main_exit (.raised (.configError "Input directory must be specified (--input or config)")) = 1 ∧
    main_exit (.completed []) = 1 := by
  refine ⟨?_, rfl, rfl⟩
  rfl

/-- Claim C4 (amended): a completed run with at least one result exits 0 when
nothing failed and 1 when anything failed; that partial-failure code 1 is
distinct from the path-error exit code (2) and the fatal-error exit code (10),
but it coincides with the configuration-error exit code (1).  (A run with an
empty result list exits 1 even with zero failures.) -/
theorem main_exit_when_some_failed (results : List ProcessingResult)
    (hne : results ≠ []) (cm pm fm : String) :
    ((get_processing_stats results).failed = 0 → main_exit (.completed results) = 0) ∧
    (0 < (get_processing_stats results).failed →
      main_exit (.completed results) = 1 ∧
      main_exit (.completed results) ≠ main_exit (.raised (.pathError pm)) ∧
      main_exit (.completed results) ≠ main_exit (.raised (.fatalError fm)) ∧
      main_exit (.completed results) = main_exit (.raised (.configError cm))) := by
  have hne2 : results.isEmpty = false := by
    cases results
    · exact absurd rfl hne
    · rfl
  constructor
  · intro hz
    simp only [main_exit, hne2, Bool.false_eq_true, if_false, print_summary]
    rw [if_neg (by omega)]
  · intro hf
    have h1 : main_exit (.completed results) = 1 := by
      simp only [main_exit, hne2, Bool.false_eq_true, if_false, print_summary]
      rw [if_pos hf]
    refine ⟨h1, ?_, ?_, ?_⟩
    · rw [h1]
      simp only [main_exit, PyError.exit_code]
      decide
    · rw [h1]
      simp only [main_exit, PyError.exit_code]
      decide
    · rw [h1]
      simp only [main_exit, PyError.exit_code]

/-- Claim C4 witness: a one-file run that failed, against concrete error
messages for the three fatal classes. -/
theorem claim_C4_witness :
    ((get_processing_stats [sampleFailedResult]).failed = 0 →
      main_exit (.completed [sampleFailedResult]) = 0) ∧
    (0 < (get_processing_stats [sampleFailedResult]).failed →
      main_exit (.completed [sampleFailedResult]) = 1 ∧
      main_exit (.completed [sampleFailedResult]) ≠
        main_exit (.raised (.pathError "Path does not exist: screenshots")) ∧
      main_exit (.completed [sampleFailedResult]) ≠
        main_exit (.raised (.fatalError "out of memory")) ∧
      main_exit (.completed [sampleFailedResult]) =
        main_exit (.raised (.configError "Invalid tablet size: 12inch"))) :=
  main_exit_when_some_failed [sampleFailedResult] (List.cons_ne_nil _ _)
    "Invalid tablet size: 12inch" "Path does not exist: screenshots" "out of memory"

/-! ## Claim C7 -/

/-- Claim C7 counterexample: a missing input directory does stop the batch
(empty result list), but its run exits with the very same code as a run whose
files failed processing — the condition is not reported distinctly. -/
theorem claim_C7_counterexample :
    process_directory sampleGen sampleEnv badDir = [] ∧
    main_exit (.completed (process_directory sampleGen sampleEnv badDir)) =
      main_exit (.completed [sampleFailedResult]) := by
  exact ⟨rfl, rfl⟩

/-- Claim C7 (amended): a missing or unreadable input directory prevents any
per-file processing — `process_directory` catches the `PathError` and returns
an empty list, so the batch never starts — but the condition is not surfaced
as a distinct batch-level path error: the run exits 1, the same exit signal as
a run with per-file processing failures. -/
theorem missing_input_dir_not_distinct (gen : GenConfig) (env : Env) (dir : InputDir)
    (m : String) (hbad : dir.validation = .error m)
    (r : ProcessingResult) (hr : r.success = false) :
    process_directory gen env dir = [] ∧
    main_exit (.completed (process_directory gen env dir)) = 1 ∧
    main_exit (.completed (process_directory gen env dir)) =
      main_exit (.completed [r]) := by
  have h0 : process_directory gen env dir = [] := by
    unfold process_directory
    rw [hbad]
  have h2 : main_exit (.completed [r]) = 1 := by
    simp [main_exit, print_summary, get_processing_stats, List.filter_cons, hr]
  refine ⟨h0, ?_, ?_⟩
  · rw [h0]
    rfl
  · rw [h0, h2]
    rfl

/-- Claim C7 witness: the unreadable sample directory against a concrete
failed result. -/
theorem claim_C7_witness :
    process_directory sampleGen sampleEnv badDir = [] ∧
    main_exit (.completed (process_directory sampleGen sampleEnv badDir)) = 1 ∧
    main_exit (.completed (process_directory sampleGen sampleEnv badDir)) =
      main_exit (.completed [sampleFailedResult]) :=
  missing_input_dir_not_distinct sampleGen sampleEnv badDir
    "Path does not exist: screenshots" rfl sampleFailedResult rfl

end Voicenotea
